import Mathlib

/-!
# Verification of the job_scraper core

A shallow embedding of `src/job_scraper/scraper.py`: the platform parsers
(`parse_lever`, `parse_ashby`, `parse_greenhouse`, `parse_smartrecruiters`),
the redirect classifier (`is_redirect_to_listing`), the scrape loop
(`scrape_jobs`) and the delta store (`process_results`), together with
theorems settling the frozen claims about them.

Pages fetched over the network are modelled by a `Soup` structure that
records the answer the real BeautifulSoup object gives to each of the
exact queries the Python code performs (one field per distinct selector,
holding the `get_text(strip=True)` string of the found element, or `none`
when the selector matches nothing).  Network-produced values (the fetch
response, the Ashby GraphQL reply, the enrichment lookups) are inputs.
-/

/-! ## Python string primitives -/

/-- Does `pat` occur as a contiguous run of `cs` (checked at every start)? -/
def containsSubAux (pat : List Char) : List Char → Bool
  | [] => pat.isEmpty
  | c :: rest => pat.isPrefixOf (c :: rest) || containsSubAux pat rest

/-- Python substring containment `pat in s` (on code points). -/
def containsSub (s pat : String) : Bool :=
  containsSubAux pat.toList s.toList

/-- Python slicing `s[:n]` (first `n` code points). -/
def pySlice (s : String) (n : Nat) : String :=
  String.mk (s.toList.take n)

/-- Python `s.lower()` (ASCII case folding, as `Char.toLower`). -/
def pyLower (s : String) : String :=
  String.mk (s.toList.map Char.toLower)

/-- Python `s.strip()`: drop whitespace from both ends. -/
def pyStrip (s : String) : String :=
  String.mk (((s.toList.dropWhile Char.isWhitespace).reverse.dropWhile Char.isWhitespace).reverse)

/-- Python `s.strip(c)` for a single character: drop `c` from both ends. -/
def stripChar (s : String) (c : Char) : String :=
  String.mk (((s.toList.dropWhile (· = c)).reverse.dropWhile (· = c)).reverse)

/-- Auxiliary splitter: accumulates the chars of the current piece (reversed). -/
def splitCharAux (c : Char) : List Char → List Char → List String
  | [], acc => [String.mk acc.reverse]
  | x :: xs, acc =>
      if x = c then String.mk acc.reverse :: splitCharAux c xs []
      else splitCharAux c xs (x :: acc)

/-- Python `s.split(c)` for a one-character separator; `"".split(c) = [""]`. -/
def pySplitChar (s : String) (c : Char) : List String :=
  splitCharAux c s.toList []

theorem splitCharAux_ne_nil (c : Char) (cs acc : List Char) :
    splitCharAux c cs acc ≠ [] := by
  induction cs generalizing acc with
  | nil => simp [splitCharAux]
  | cons x xs ih =>
      simp only [splitCharAux]
      split
      · simp
      · exact ih _

theorem pySplitChar_ne_nil (s : String) (c : Char) : pySplitChar s c ≠ [] :=
  splitCharAux_ne_nil c s.toList []

/-! ## URL parsing (model of Python `urllib.parse.urlparse`)

Restricted to the two components the scraper reads, `netloc` and `path`,
for URLs of the `scheme://host/path?query#fragment` shape the scraper
handles (every candidate URL has an explicit `://`). -/

structure UrlParts where
  netloc : String
  path : String
deriving DecidableEq, Repr

/-- Find the first `"://"` and return what follows it. -/
def afterSchemeSep : List Char → Option (List Char)
  | ':' :: '/' :: '/' :: rest => some rest
  | _ :: rest => afterSchemeSep rest
  | [] => none

/-- Model of `urlparse`: netloc is everything after `://` up to the first
`/`, `?` or `#`; path runs from there up to the first `?` or `#`. A URL
with no `://` has empty netloc and its text (minus query/fragment) as path. -/
def urlparse (url : String) : UrlParts :=
  match afterSchemeSep url.toList with
  | none =>
      { netloc := ""
        path := String.mk (url.toList.takeWhile fun c => c ≠ '?' ∧ c ≠ '#') }
  | some rest =>
      let netlocChars := rest.takeWhile fun c => c ≠ '/' ∧ c ≠ '?' ∧ c ≠ '#'
      let afterNetloc := rest.drop netlocChars.length
      { netloc := String.mk netlocChars
        path := String.mk (afterNetloc.takeWhile fun c => c ≠ '?' ∧ c ≠ '#') }

/-- `urlparse(url).path.strip('/').split('/')` as computed by the scraper. -/
def py_path_parts (url : String) : List String :=
  pySplitChar (stripChar (urlparse url).path '/') '/'

/-! ## Data model -/

/-- A `<meta>` tag found by `soup.find('meta', ...)`; its `content`
attribute may be absent (`tag.get('content')` then yields Python `None`). -/
structure MetaTag where
  content : Option String
deriving DecidableEq, Repr

/-- The answers a fetched page's BeautifulSoup object gives to the exact
queries the four parsers perform.  Element fields hold the found element's
`get_text(strip=True)` string (`some ""` = element found with empty text,
`none` = selector matched nothing). -/
structure Soup where
  /-- `soup.get_text()` of the whole page (lower-cased at use sites). -/
  get_text : String
  /-- `len(soup.find_all('div', class_='posting'))`. -/
  postings : Nat
  /-- `soup.find('h2', class_='posting-headline')`. -/
  posting_headline_h2 : Option String
  /-- `soup.find('h2')`. -/
  h2 : Option String
  /-- `soup.find('div', class_='location')`. -/
  location_div : Option String
  /-- `soup.find('span', class_='location')`. -/
  location_span : Option String
  /-- `soup.find('div', class_='content')`. -/
  content_class_div : Option String
  /-- `soup.find('div', class_='posting-description')`. -/
  posting_description_div : Option String
  /-- `soup.find('h1', class_='app-title')`. -/
  app_title_h1 : Option String
  /-- `soup.find('h1')`. -/
  h1 : Option String
  /-- `soup.find('meta', property='og:title')`. -/
  og_title_meta : Option MetaTag
  /-- `soup.find('div', id='content')`. -/
  content_id_div : Option String
  /-- `soup.find('div', id='main')`. -/
  main_id_div : Option String
  /-- `soup.find('h1', class_='job-title')`. -/
  job_title_h1 : Option String
  /-- `soup.find('h1', id='st-jobTitle')`. -/
  st_jobTitle_h1 : Option String
  /-- `soup.find('meta', itemprop='addressLocality')`. -/
  addressLocality_meta : Option MetaTag
  /-- `soup.find('div', itemprop='description')`. -/
  description_itemprop_div : Option String
  /-- `soup.find('div', class_='job-sections')`. -/
  job_sections_div : Option String
  /-- `soup.find('title')`. -/
  title_element : Option String
  /-- `soup.find('div', class_='job-description')`. -/
  job_description_div : Option String
  /-- `soup.find('div', {'data-testid': 'job-description'})`. -/
  job_description_testid_div : Option String
  /-- `soup.find('meta', property='og:description')`. -/
  og_description_meta : Option MetaTag
deriving DecidableEq, Repr

/-- Results of the external enrichment lookups (`extract_company_website`
and `scrape_company_contacts`), which perform network IO; modelled as an
input to the parsers.  `hr_name` is the placeholder the code never fills. -/
structure Enrichment where
  company_website : Option String
  hr_email : Option String
  hr_name : Option String
  hr_linkedin : Option String
deriving DecidableEq, Repr

/-- The normalized record dict a parser returns (one CSV row).  Fields that
Python can set to `None` are `Option String`. -/
structure JobPosting where
  job_title : Option String
  company : String
  location : Option String
  description : String
  job_url : String
  company_website : Option String
  hr_email : Option String
  hr_name : Option String
  hr_linkedin : Option String
  source : String
deriving DecidableEq, Repr

/-- One entry of the Ashby GraphQL `jobPostings` list; `.get` semantics
make every key optional. -/
structure ApiJob where
  id : Option String
  title : Option String
  locationName : Option String
deriving DecidableEq, Repr

/-- The reply to the Ashby GraphQL POST in `parse_ashby`: HTTP status,
whether the JSON body carries an `errors` key, and the decoded
`data.jobBoard.jobPostings` list. -/
structure AshbyApiResponse where
  status_code : Nat
  has_errors : Bool
  job_postings : List ApiJob
deriving DecidableEq, Repr

/-! ## Company extraction (scraper.py lines 136–163) -/

/-- `extract_company_from_url`: first path segment for supported ATS hosts
(note `''.split('/') == ['']`, so `path_parts` is never empty and the
length guard always passes), else `"Unknown"`. -/
def extract_company_from_url (url : String) : String :=
  let parsed := urlparse url
  let path_parts := pySplitChar (stripChar parsed.path '/') '/'
  if containsSub parsed.netloc "lever.co" && decide (1 ≤ path_parts.length) then
    path_parts.headD ""
  else if containsSub parsed.netloc "ashbyhq.com" && decide (1 ≤ path_parts.length) then
    path_parts.headD ""
  else if containsSub parsed.netloc "greenhouse.io" && decide (1 ≤ path_parts.length) then
    path_parts.headD ""
  else if containsSub parsed.netloc "smartrecruiters.com" && decide (1 ≤ path_parts.length) then
    path_parts.headD ""
  else "Unknown"

/-- A netloc matching one of the four ATS host patterns of
`extract_company_from_url`. -/
def supported_host (netloc : String) : Bool :=
  containsSub netloc "lever.co" || containsSub netloc "ashbyhq.com" ||
    containsSub netloc "greenhouse.io" || containsSub netloc "smartrecruiters.com"

/-! ## Platform parsers (scraper.py lines 295–579) -/

/-- The Lever closed-text scan (scraper.py line 304), on the lower-cased
page text. -/
def lever_closed_text (t : String) : Bool :=
  containsSub t "no longer open" || containsSub t "job is closed" ||
    containsSub t "position has been filled"

/-- The Ashby closed-text scan (scraper.py line 363), on the lower-cased
page text. -/
def ashby_closed_text (t : String) : Bool :=
  containsSub t "job not found" || containsSub t "no longer accepting applications" ||
    containsSub t "job is closed"

/-- The SmartRecruiters closed-text scan (scraper.py line 537), on the
lower-cased page text. -/
def sr_closed_text (t : String) : Bool :=
  containsSub t "no longer available" || containsSub t "job is closed" ||
    containsSub t "position has been filled"

/-- `parse_lever(url, soup)` (scraper.py lines 295–349). -/
def parse_lever (url : String) (soup : Soup) (enr : Enrichment) : Option JobPosting :=
  let page_text := pyLower soup.get_text
  if lever_closed_text page_text then none
  else if soup.postings > 1 then none
  else
    let title := (soup.posting_headline_h2 <|> soup.h2).getD "Unknown Title"
    let location := soup.location_div.getD "Remote/Unknown"
    let description_div := soup.content_class_div <|> soup.posting_description_div
    let description :=
      match description_div with
      | some d => pySlice d 500 ++ "..."
      | none => "No description found"
    if description == "No description found" || pyStrip description == "" then none
    else some
      { job_title := some title
        company := extract_company_from_url url
        location := some location
        description := description
        job_url := url
        company_website := enr.company_website
        hr_email := enr.hr_email
        hr_name := enr.hr_name
        hr_linkedin := enr.hr_linkedin
        source := "Lever" }

/-- `path_parts[1].split('?')[0].split('/')[0]` (scraper.py line 377). -/
def ashby_job_id (seg : String) : String :=
  (pySplitChar ((pySplitChar seg '?').headD "") '/').headD ""

/-- `title_tag = soup.find('meta', property='og:title') or soup.find('title')`
followed by `title_tag.get('content') if title_tag.name == 'meta' else
title_tag.get_text(strip=True)` (scraper.py lines 417–418).  `none` is the
exception path (no tag at all, or a meta without `content`, which makes
the later `"@" in title` raise), caught by the surrounding `except`. -/
def ashby_fallback_title_raw (soup : Soup) : Option String :=
  match soup.og_title_meta with
  | some m => m.content
  | none => soup.title_element

/-- `if "@" in title: title = title.split("@")[0].strip()` (lines 419–420). -/
def ashby_clean_title (t : String) : String :=
  if containsSub t "@" then pyStrip ((pySplitChar t '@').headD "") else t

/-- The `desc_selectors` list (scraper.py lines 428–433), each entry
reduced to the string the loop body reads from it (`get('content', '')`
for the meta, `get_text(strip=True)` otherwise). -/
def ashby_desc_sources (soup : Soup) : List (Option String) :=
  [soup.job_description_div,
   soup.job_description_testid_div,
   soup.posting_description_div,
   soup.og_description_meta.map fun m => m.content.getD ""]

/-- The `for selector in desc_selectors` loop (scraper.py lines 435–443):
each found selector overwrites `description`; a non-empty text longer than
50 chars is truncated to 500 chars plus `"..."` and breaks the loop. -/
def ashby_desc_loop : List (Option String) → String → String
  | [], acc => acc
  | none :: rest, acc => ashby_desc_loop rest acc
  | some t :: rest, _ =>
      if t != "" && decide (t.length > 50) then pySlice t 500 ++ "..."
      else ashby_desc_loop rest t

/-- `parse_ashby(url, soup)` (scraper.py lines 351–469).  `api = none`
models the GraphQL POST itself raising (network error → `except` → `None`). -/
def parse_ashby (url : String) (soup : Soup) (api : Option AshbyApiResponse)
    (enr : Enrichment) : Option JobPosting :=
  let text_content := pyLower soup.get_text
  if ashby_closed_text text_content then none
  else
    let path_parts := py_path_parts url
    if path_parts.length < 2 then none
    else
      let job_id := ashby_job_id (path_parts.getD 1 "")
      match api with
      | none => none
      | some resp =>
        if resp.status_code ≠ 200 then none
        else if resp.has_errors then none
        else
          let job_data := resp.job_postings.find? fun j => j.id == some job_id
          let title_loc : Option (String × String) :=
            match job_data with
            | none =>
                match ashby_fallback_title_raw soup with
                | none => none
                | some t => some (ashby_clean_title t, "Unknown")
            | some j => some (j.title.getD "Unknown Title", j.locationName.getD "Unknown")
          match title_loc with
          | none => none
          | some tl =>
            let description := ashby_desc_loop (ashby_desc_sources soup) ""
            if description == "" || description.length < 50 then none
            else some
              { job_title := some tl.1
                company := extract_company_from_url url
                location := some tl.2
                description := description
                job_url := url
                company_website := enr.company_website
                hr_email := enr.hr_email
                hr_name := enr.hr_name
                hr_linkedin := enr.hr_linkedin
                source := "Ashby" }

/-- `parse_greenhouse(url, soup)` (scraper.py lines 471–526).  Note: no
closed-text scan is performed for Greenhouse. -/
def parse_greenhouse (url : String) (soup : Soup) (enr : Enrichment) : Option JobPosting :=
  let title := soup.app_title_h1 <|> soup.h1
  let title_text : Option String :=
    match title with
    | none =>
        match soup.og_title_meta with
        | some m => m.content
        | none => some "Unknown Title"
    | some t => some t
  let location := (soup.location_div <|> soup.location_span).getD "Unknown"
  let description_div := soup.content_id_div <|> soup.main_id_div
  let description :=
    match description_div with
    | some d => pySlice d 500 ++ "..."
    | none => "No description found"
  if description == "No description found" || pyStrip description == "" then none
  else some
    { job_title := title_text
      company := extract_company_from_url url
      location := some location
      description := description
      job_url := url
      company_website := enr.company_website
      hr_email := enr.hr_email
      hr_name := enr.hr_name
      hr_linkedin := enr.hr_linkedin
      source := "Greenhouse" }

/-- `parse_smartrecruiters(url, soup)` (scraper.py lines 528–579). -/
def parse_smartrecruiters (url : String) (soup : Soup) (enr : Enrichment) : Option JobPosting :=
  let page_text := pyLower soup.get_text
  if sr_closed_text page_text then none
  else
    let title := (soup.job_title_h1 <|> soup.st_jobTitle_h1).getD "Unknown Title"
    let location : Option String :=
      match soup.addressLocality_meta with
      | some m => m.content
      | none => some "Unknown"
    let description_div := soup.description_itemprop_div <|> soup.job_sections_div
    let description :=
      match description_div with
      | some d => pySlice d 500 ++ "..."
      | none => "No description found"
    if description == "No description found" || pyStrip description == "" then none
    else some
      { job_title := some title
        company := extract_company_from_url url
        location := location
        description := description
        job_url := url
        company_website := enr.company_website
        hr_email := enr.hr_email
        hr_name := enr.hr_name
        hr_linkedin := enr.hr_linkedin
        source := "SmartRecruiters" }

/-! ## Redirect classifier (scraper.py lines 581–594) -/

/-- `is_redirect_to_listing(original_url, final_url)`. -/
def is_redirect_to_listing (original_url final_url : String) : Bool :=
  let orig := urlparse original_url
  let final := urlparse final_url
  decide ((final.path.length < orig.path.length) ∧ orig.netloc = final.netloc)

/-! ## Scrape loop (scraper.py lines 596–643) -/

/-- Everything the network hands `scrape_jobs` for one URL whose
`requests.get` returned: the HTTP status, `response.url` (the final,
post-redirect URL), the parsed soup, plus the parse-time network inputs
(the Ashby GraphQL reply and the enrichment lookups). -/
structure FetchResult where
  status_code : Nat
  final_url : String
  soup : Soup
  ashby_api : Option AshbyApiResponse
  enrich : Enrichment
deriving DecidableEq, Repr

/-- One iteration of the `for url in urls` loop body: skip on non-200,
skip on a closing redirect, then route by host substring of the URL.
`none` for the fetch models `requests.get` raising (caught by `except`). -/
def scrape_step (url : String) (fetched : Option FetchResult) : Option JobPosting :=
  match fetched with
  | none => none
  | some r =>
    if r.status_code ≠ 200 then none
    else if is_redirect_to_listing url r.final_url then none
    else if containsSub url "lever.co" then parse_lever url r.soup r.enrich
    else if containsSub url "ashbyhq.com" then parse_ashby url r.soup r.ashby_api r.enrich
    else if containsSub url "greenhouse.io" then parse_greenhouse url r.soup r.enrich
    else if containsSub url "smartrecruiters.com" then parse_smartrecruiters url r.soup r.enrich
    else none

/-- `scrape_jobs(urls)`: each URL paired with its fetch outcome; parsed
records are appended to `job_data` in order. -/
def scrape_jobs (items : List (String × Option FetchResult)) : List JobPosting :=
  items.filterMap fun it => scrape_step it.1 it.2

/-! ## Delta store (scraper.py lines 678–711) -/

/-- The persisted CSV state: `master` / `delta` are `none` while the file
does not exist yet, `some rows` once written. -/
structure StoreState where
  master : Option (List JobPosting)
  delta : Option (List JobPosting)
deriving DecidableEq, Repr

/-- The `Job URL` column of a list of rows. -/
def jobURLs (rows : List JobPosting) : List String :=
  rows.map fun r => r.job_url

/-- The rows of the master file, `[]` if it does not exist. -/
def masterRows (st : StoreState) : List JobPosting :=
  st.master.getD []

/-- `process_results(new_jobs)` (scraper.py lines 678–711) as a state
transformer: empty input is a no-op; with an existing master the delta is
`new_df[~new_df['Job URL'].isin(existing_urls)]`, appended to the master
when non-empty (otherwise an empty delta file is written); on first run
both files are written with exactly `new_jobs`. -/
def process_results (new_jobs : List JobPosting) (st : StoreState) : StoreState :=
  if new_jobs.isEmpty then st
  else
    match st.master with
    | some master_df =>
        let existing_urls := jobURLs master_df
        let delta_df := new_jobs.filter fun r => decide (r.job_url ∉ existing_urls)
        if ¬ delta_df.isEmpty then
          { master := some (master_df ++ delta_df), delta := some delta_df }
        else
          { master := some master_df, delta := some [] }
    | none => { master := some new_jobs, delta := some new_jobs }

/-- The delta subsequence a run of `process_results new_jobs st` computes
(the expression of scraper.py line 697; `new_jobs` itself on a first run,
nothing on empty input). -/
def computed_delta (new_jobs : List JobPosting) (st : StoreState) : List JobPosting :=
  if new_jobs.isEmpty then []
  else
    match st.master with
    | some master_df => new_jobs.filter fun r => decide (r.job_url ∉ jobURLs master_df)
    | none => new_jobs

/-! ## Helper lemmas -/

theorem pySlice_length (s : String) (n : Nat) : (pySlice s n).length = min n s.length := by
  show (s.data.take n).length = min n s.length
  rw [List.length_take]
  rfl

theorem dots_length : ("..." : String).length = 3 := by decide

theorem dots_append_length (d : String) : (pySlice d 500 ++ "...").length ≤ 503 := by
  rw [String.length_append, pySlice_length, dots_length]
  have := Nat.min_le_left 500 d.length
  omega

theorem ne_empty_of_length_pos {s : String} (h : 0 < s.length) : s ≠ "" := by
  intro he
  rw [he] at h
  simp at h

theorem dots_append_ne_empty (d : String) : pySlice d 500 ++ "..." ≠ "" := by
  apply ne_empty_of_length_pos
  rw [String.length_append, dots_length]
  omega

/-! ## Concrete fixtures used by witnesses and counterexamples -/

/-- A page on which every selector misses. -/
def soupBase : Soup :=
  { get_text := ""
    postings := 0
    posting_headline_h2 := none
    h2 := none
    location_div := none
    location_span := none
    content_class_div := none
    posting_description_div := none
    app_title_h1 := none
    h1 := none
    og_title_meta := none
    content_id_div := none
    main_id_div := none
    job_title_h1 := none
    st_jobTitle_h1 := none
    addressLocality_meta := none
    description_itemprop_div := none
    job_sections_div := none
    title_element := none
    job_description_div := none
    job_description_testid_div := none
    og_description_meta := none }

/-- Enrichment lookups that found nothing. -/
def enr0 : Enrichment :=
  { company_website := none, hr_email := none, hr_name := none, hr_linkedin := none }

/-! ## C3 — redirect classifier -/

/-- C3: `is_redirect_to_listing` returns true exactly when the two URLs
have the same netloc and the final URL's path is strictly shorter (in
characters) than the requested one's; so a same-length or longer final
path, or any cross-host redirect, yields false. -/
theorem c3_redirect_iff (requested final : String) :
    is_redirect_to_listing requested final = true ↔
      (urlparse requested).netloc = (urlparse final).netloc ∧
        (urlparse final).path.length < (urlparse requested).path.length := by
  simp [is_redirect_to_listing, and_comm]

/-! ## C9 — company identity -/

/-- C9 counterexample: on a supported-platform URL whose path has no
segments, `extract_company_from_url` returns the empty string, not
`"Unknown"` (Python `''.split('/') == ['']`, so the length guard passes
and `path_parts[0] == ''`). -/
theorem c9_counterexample :
    extract_company_from_url "https://jobs.lever.co/" = "" ∧
      extract_company_from_url "https://jobs.lever.co/" ≠ "Unknown" := by
  decide

/-- C9 amended: for a URL on a supported platform host the company is
`path.strip('/').split('/')[0]` — the first path segment, or `""` when the
path has no segments — independent of page content; `"Unknown"` is
returned exactly for URLs on no supported host. -/
theorem c9_amended_thm (url : String) :
    (supported_host (urlparse url).netloc = true →
        extract_company_from_url url = (py_path_parts url).headD "") ∧
      (supported_host (urlparse url).netloc = false →
        extract_company_from_url url = "Unknown") := by
  have hlen : 1 ≤ (pySplitChar (stripChar (urlparse url).path '/') '/').length := by
    have h := pySplitChar_ne_nil (stripChar (urlparse url).path '/') '/'
    cases hc : pySplitChar (stripChar (urlparse url).path '/') '/' with
    | nil => exact absurd hc h
    | cons a l => simp
  have hd : decide (1 ≤ (pySplitChar (stripChar (urlparse url).path '/') '/').length) = true :=
    decide_eq_true hlen
  constructor
  · intro h
    simp only [supported_host, Bool.or_eq_true] at h
    simp only [extract_company_from_url, py_path_parts, hd, Bool.and_true]
    rcases h with ((h | h) | h) | h <;> simp [h]
  · intro h
    simp only [supported_host, Bool.or_eq_false_iff] at h
    simp [extract_company_from_url, h.1.1.1, h.1.1.2, h.1.2, h.2]

/-- C9 amended, evaluated: `"acme"` for a Lever URL with a path segment,
`"Unknown"` for a non-ATS host. -/
theorem c9_amended_witness :
    extract_company_from_url "https://jobs.lever.co/acme/1" = "acme" ∧
      extract_company_from_url "https://example.com/a/b" = "Unknown" :=
  ⟨((c9_amended_thm "https://jobs.lever.co/acme/1").1 (by decide)).trans (by decide),
   (c9_amended_thm "https://example.com/a/b").2 (by decide)⟩

/-! ## C1 — closed-phrase liveness check -/

/-- C1 amended: the three platforms that do scan the page text (Lever,
Ashby, SmartRecruiters) return null whenever their marker scan fires on
the lower-cased page text; Greenhouse performs no closed-phrase scan. -/
theorem c1_amended_thm :
    (∀ (url : String) (soup : Soup) (enr : Enrichment),
        lever_closed_text (pyLower soup.get_text) = true → parse_lever url soup enr = none) ∧
    (∀ (url : String) (soup : Soup) (api : Option AshbyApiResponse) (enr : Enrichment),
        ashby_closed_text (pyLower soup.get_text) = true → parse_ashby url soup api enr = none) ∧
    (∀ (url : String) (soup : Soup) (enr : Enrichment),
        sr_closed_text (pyLower soup.get_text) = true → parse_smartrecruiters url soup enr = none) := by
  refine ⟨fun url soup enr h => ?_, fun url soup api enr h => ?_, fun url soup enr h => ?_⟩
  · simp [parse_lever, h]
  · simp [parse_ashby, h]
  · simp [parse_smartrecruiters, h]

/-- A Greenhouse page whose rendered text contains every closed-phrase
marker named by the specification, together with a description container. -/
def gh_closed_soup : Soup :=
  { soupBase with
    get_text := "This position has been filled. Job not found. No longer open. No longer accepting applications."
    content_id_div := some "We build rockets" }

/-- C1 counterexample: `parse_greenhouse` returns a posting for a page
whose text contains all of the claimed closed-phrase markers — Greenhouse
has no closed-phrase scan, so the claim fails for that platform. -/
theorem c1_counterexample :
    containsSub (pyLower gh_closed_soup.get_text) "no longer open" = true ∧
    containsSub (pyLower gh_closed_soup.get_text) "position has been filled" = true ∧
    containsSub (pyLower gh_closed_soup.get_text) "job not found" = true ∧
    containsSub (pyLower gh_closed_soup.get_text) "no longer accepting applications" = true ∧
    parse_greenhouse "https://boards.greenhouse.io/acme/jobs/1" gh_closed_soup enr0 =
      some { job_title := some "Unknown Title"
             company := "acme"
             location := some "Unknown"
             description := "We build rockets..."
             job_url := "https://boards.greenhouse.io/acme/jobs/1"
             company_website := none
             hr_email := none
             hr_name := none
             hr_linkedin := none
             source := "Greenhouse" } := by
  decide

/-- A Lever page saying the posting is no longer open. -/
def lever_closed_soup : Soup :=
  { soupBase with get_text := "Sorry, this posting is no longer open." }

/-- An Ashby page saying the job was not found. -/
def ashby_closed_soup : Soup :=
  { soupBase with get_text := "Job not found." }

/-- A SmartRecruiters page saying the offer is no longer available. -/
def sr_closed_soup : Soup :=
  { soupBase with get_text := "This offer is no longer available." }

/-- C1 amended, evaluated on pages carrying each platform's marker. -/
theorem c1_witness :
    parse_lever "https://jobs.lever.co/acme/1" lever_closed_soup enr0 = none ∧
    parse_ashby "https://jobs.ashbyhq.com/acme/j1" ashby_closed_soup none enr0 = none ∧
    parse_smartrecruiters "https://jobs.smartrecruiters.com/acme/1" sr_closed_soup enr0 = none :=
  ⟨c1_amended_thm.1 _ _ _ (by decide),
   c1_amended_thm.2.1 _ _ _ _ (by decide),
   c1_amended_thm.2.2 _ _ _ (by decide)⟩

/-! ## C5 — empty description handling -/

/-- A live Lever page whose `div.content` container exists but renders no
text. -/
def lever_empty_desc_soup : Soup :=
  { soupBase with
    get_text := "acme careers engineer"
    postings := 1
    posting_headline_h2 := some "Engineer"
    location_div := some "NYC"
    content_class_div := some "" }

/-- C5, evaluated at the failing input: the matched description container
yields empty text, yet `parse_lever` returns a posting whose description
is the bare ellipsis `"..."` — the `"..."` is appended before the
emptiness test, so `not description.strip()` can never fire for a found
container. -/
theorem c5_theorem :
    lever_empty_desc_soup.content_class_div = some "" ∧
    parse_lever "https://jobs.lever.co/acme/1" lever_empty_desc_soup enr0 =
      some { job_title := some "Engineer"
             company := "acme"
             location := some "NYC"
             description := "..."
             job_url := "https://jobs.lever.co/acme/1"
             company_website := none
             hr_email := none
             hr_name := none
             hr_linkedin := none
             source := "Lever" } := by
  decide

/-! ## C6 — ellipsis marker -/

/-- A live Lever page whose description text is 9 characters long. -/
def lever_short_desc_soup : Soup :=
  { soupBase with
    get_text := "acme careers engineer"
    postings := 1
    posting_headline_h2 := some "Engineer"
    location_div := some "NYC"
    content_class_div := some "Great job" }

/-- C6 counterexample: a source description of 9 ≤ 500 characters is
*not* returned unmodified — the ellipsis marker is appended anyway. -/
theorem c6_counterexample :
    ("Great job" : String).length ≤ 500 ∧
    ("Great job..." : String) ≠ "Great job" ∧
    parse_lever "https://jobs.lever.co/acme/2" lever_short_desc_soup enr0 =
      some { job_title := some "Engineer"
             company := "acme"
             location := some "NYC"
             description := "Great job..."
             job_url := "https://jobs.lever.co/acme/2"
             company_website := none
             hr_email := none
             hr_name := none
             hr_linkedin := none
             source := "Lever" } := by
  decide

/-- C6 amended: whenever a description container is found, the extracted
description is the first 500 characters of its text with the ellipsis
marker appended *unconditionally* — also when the source text has 500
characters or fewer (shown for the two cited platforms, Lever and
SmartRecruiters). -/
theorem c6_amended_thm :
    (∀ (url : String) (soup : Soup) (enr : Enrichment) (d : String) (row : JobPosting),
        soup.content_class_div = some d → parse_lever url soup enr = some row →
          row.description = pySlice d 500 ++ "...") ∧
    (∀ (url : String) (soup : Soup) (enr : Enrichment) (d : String) (row : JobPosting),
        soup.description_itemprop_div = some d → parse_smartrecruiters url soup enr = some row →
          row.description = pySlice d 500 ++ "...") := by
  constructor
  · intro url soup enr d row h1 h2
    simp only [parse_lever, h1, Option.some_orElse] at h2
    split at h2 <;> simp_all
    obtain ⟨-, -, h3⟩ := h2
    rw [← h3]
  · intro url soup enr d row h1 h2
    simp only [parse_smartrecruiters, h1, Option.some_orElse] at h2
    split at h2 <;> simp_all
    obtain ⟨-, h3⟩ := h2
    rw [← h3]

/-- C6 amended, evaluated: the 9-character description comes back as
`"Great job..."`. -/
theorem c6_amended_witness :
    parse_lever "https://jobs.lever.co/acme/2" lever_short_desc_soup enr0 =
        some { job_title := some "Engineer"
               company := "acme"
               location := some "NYC"
               description := "Great job..."
               job_url := "https://jobs.lever.co/acme/2"
               company_website := none
               hr_email := none
               hr_name := none
               hr_linkedin := none
               source := "Lever" } ∧
    ({ job_title := some "Engineer"
       company := "acme"
       location := some "NYC"
       description := "Great job..."
       job_url := "https://jobs.lever.co/acme/2"
       company_website := none
       hr_email := none
       hr_name := none
       hr_linkedin := none
       source := "Lever" } : JobPosting).description = pySlice "Great job" 500 ++ "..." :=
  ⟨by decide,
   c6_amended_thm.1 "https://jobs.lever.co/acme/2" lever_short_desc_soup enr0 "Great job" _
     (by decide) (by decide)⟩

/-! ## C7 — description length bounds -/

theorem ashby_desc_loop_length_le (sels : List (Option String)) (acc : String)
    (h : acc.length ≤ 503) : (ashby_desc_loop sels acc).length ≤ 503 := by
  induction sels generalizing acc with
  | nil => simpa [ashby_desc_loop] using h
  | cons s rest ih =>
      cases s with
      | none => simpa [ashby_desc_loop] using ih acc h
      | some t =>
          simp only [ashby_desc_loop]
          split
          · exact dots_append_length t
          · rename_i hc
            apply ih
            by_cases hl : t.length > 50
            · have h1 : (t != "") = false := by
                cases hb : (t != "") with
                | false => rfl
                | true => rw [hb, decide_eq_true hl] at hc; simp at hc
              have ht : t = "" := by simpa using h1
              rw [ht]
              decide
            · omega

/-- C7: on all four platforms, every extracted posting has a non-empty
description of at most 504 characters (in fact at most 503: at most 500
source characters plus the 3-character ellipsis). -/
theorem c7_desc_bounds :
    (∀ (url : String) (soup : Soup) (enr : Enrichment) (row : JobPosting),
        parse_lever url soup enr = some row →
          row.description ≠ "" ∧ row.description.length ≤ 504) ∧
    (∀ (url : String) (soup : Soup) (api : Option AshbyApiResponse) (enr : Enrichment)
        (row : JobPosting),
        parse_ashby url soup api enr = some row →
          row.description ≠ "" ∧ row.description.length ≤ 504) ∧
    (∀ (url : String) (soup : Soup) (enr : Enrichment) (row : JobPosting),
        parse_greenhouse url soup enr = some row →
          row.description ≠ "" ∧ row.description.length ≤ 504) ∧
    (∀ (url : String) (soup : Soup) (enr : Enrichment) (row : JobPosting),
        parse_smartrecruiters url soup enr = some row →
          row.description ≠ "" ∧ row.description.length ≤ 504) := by
  refine ⟨fun url soup enr row h => ?_, fun url soup api enr row h => ?_,
    fun url soup enr row h => ?_, fun url soup enr row h => ?_⟩
  · rcases hd : soup.content_class_div <|> soup.posting_description_div with _ | d <;>
      simp only [parse_lever, hd] at h <;> split at h <;> simp_all
    first
      | (obtain ⟨-, -, h3⟩ := h
         rw [← h3]
         exact ⟨dots_append_ne_empty d, le_trans (dots_append_length d) (by omega)⟩)
      | (obtain ⟨-, h3⟩ := h
         rw [← h3]
         exact ⟨dots_append_ne_empty d, le_trans (dots_append_length d) (by omega)⟩)
      | (rw [← h]
         exact ⟨dots_append_ne_empty d, le_trans (dots_append_length d) (by omega)⟩)
      | exact ⟨dots_append_ne_empty d, le_trans (dots_append_length d) (by omega)⟩
  · simp only [parse_ashby] at h
    split at h <;> simp_all
    split at h <;> simp_all
    split at h <;> simp_all
    obtain ⟨-, -, -, ⟨hne, hlen⟩, h3⟩ := h
    rw [← h3]
    refine ⟨by simpa using hne, ?_⟩
    exact le_trans (ashby_desc_loop_length_le (ashby_desc_sources soup) "" (by decide)) (by omega)
  · rcases hd : soup.content_id_div <|> soup.main_id_div with _ | d <;>
      simp only [parse_greenhouse, hd] at h <;> split at h <;> simp_all
    first
      | (obtain ⟨-, -, h3⟩ := h
         rw [← h3]
         exact ⟨dots_append_ne_empty d, le_trans (dots_append_length d) (by omega)⟩)
      | (obtain ⟨-, h3⟩ := h
         rw [← h3]
         exact ⟨dots_append_ne_empty d, le_trans (dots_append_length d) (by omega)⟩)
      | (rw [← h]
         exact ⟨dots_append_ne_empty d, le_trans (dots_append_length d) (by omega)⟩)
      | exact ⟨dots_append_ne_empty d, le_trans (dots_append_length d) (by omega)⟩
  · rcases hd : soup.description_itemprop_div <|> soup.job_sections_div with _ | d <;>
      simp only [parse_smartrecruiters, hd] at h <;> split at h <;> simp_all
    first
      | (obtain ⟨-, -, h3⟩ := h
         rw [← h3]
         exact ⟨dots_append_ne_empty d, le_trans (dots_append_length d) (by omega)⟩)
      | (obtain ⟨-, h3⟩ := h
         rw [← h3]
         exact ⟨dots_append_ne_empty d, le_trans (dots_append_length d) (by omega)⟩)
      | (rw [← h]
         exact ⟨dots_append_ne_empty d, le_trans (dots_append_length d) (by omega)⟩)
      | exact ⟨dots_append_ne_empty d, le_trans (dots_append_length d) (by omega)⟩

/-- A live Lever page. -/
def lever_live_soup : Soup :=
  { soupBase with
    get_text := "acme is hiring"
    postings := 1
    posting_headline_h2 := some "ML Engineer"
    location_div := some "Remote"
    content_class_div := some "Build ML systems with us" }

/-- A live Greenhouse page. -/
def gh_live_soup : Soup :=
  { soupBase with
    get_text := "acme is hiring"
    app_title_h1 := some "Data Engineer"
    location_div := some "Berlin"
    content_id_div := some "Work on data pipelines" }

/-- A live SmartRecruiters page. -/
def sr_live_soup : Soup :=
  { soupBase with
    get_text := "acme is hiring"
    job_title_h1 := some "Backend Engineer"
    addressLocality_meta := some { content := some "Paris" }
    description_itemprop_div := some "Ship backend services" }

/-- A live Ashby page (description selector text is 62 > 50 characters). -/
def ashby_live_soup : Soup :=
  { soupBase with
    get_text := "acme is hiring"
    og_title_meta := some { content := some "Platform Engineer @Acme" }
    job_description_div := some "Design and operate our cloud platform infrastructure every day" }

/-- An Ashby GraphQL reply listing the job `j1`. -/
def ashby_api_ok : AshbyApiResponse :=
  { status_code := 200
    has_errors := false
    job_postings := [{ id := some "j1", title := some "Platform Engineer", locationName := some "NYC" }] }

/-- The posting `parse_lever` extracts from `lever_live_soup`. -/
def lever_live_row : JobPosting :=
  { job_title := some "ML Engineer"
    company := "acme"
    location := some "Remote"
    description := "Build ML systems with us..."
    job_url := "https://jobs.lever.co/acme/9"
    company_website := none
    hr_email := none
    hr_name := none
    hr_linkedin := none
    source := "Lever" }

/-- The posting `parse_ashby` extracts from `ashby_live_soup` and
`ashby_api_ok`. -/
def ashby_live_row : JobPosting :=
  { job_title := some "Platform Engineer"
    company := "acme"
    location := some "NYC"
    description := "Design and operate our cloud platform infrastructure every day..."
    job_url := "https://jobs.ashbyhq.com/acme/j1"
    company_website := none
    hr_email := none
    hr_name := none
    hr_linkedin := none
    source := "Ashby" }

/-- The posting `parse_greenhouse` extracts from `gh_live_soup`. -/
def gh_live_row : JobPosting :=
  { job_title := some "Data Engineer"
    company := "acme"
    location := some "Berlin"
    description := "Work on data pipelines..."
    job_url := "https://boards.greenhouse.io/acme/jobs/9"
    company_website := none
    hr_email := none
    hr_name := none
    hr_linkedin := none
    source := "Greenhouse" }

/-- The posting `parse_smartrecruiters` extracts from `sr_live_soup`. -/
def sr_live_row : JobPosting :=
  { job_title := some "Backend Engineer"
    company := "acme"
    location := some "Paris"
    description := "Ship backend services..."
    job_url := "https://jobs.smartrecruiters.com/acme/9"
    company_website := none
    hr_email := none
    hr_name := none
    hr_linkedin := none
    source := "SmartRecruiters" }

/-- C7, evaluated on one successful extraction per platform. -/
theorem c7_witness :
    (lever_live_row.description ≠ "" ∧ lever_live_row.description.length ≤ 504) ∧
    (ashby_live_row.description ≠ "" ∧ ashby_live_row.description.length ≤ 504) ∧
    (gh_live_row.description ≠ "" ∧ gh_live_row.description.length ≤ 504) ∧
    (sr_live_row.description ≠ "" ∧ sr_live_row.description.length ≤ 504) :=
  ⟨c7_desc_bounds.1 "https://jobs.lever.co/acme/9" lever_live_soup enr0 lever_live_row
     (by decide),
   c7_desc_bounds.2.1 "https://jobs.ashbyhq.com/acme/j1" ashby_live_soup (some ashby_api_ok)
     enr0 ashby_live_row (by decide),
   c7_desc_bounds.2.2.1 "https://boards.greenhouse.io/acme/jobs/9" gh_live_soup enr0
     gh_live_row (by decide),
   c7_desc_bounds.2.2.2 "https://jobs.smartrecruiters.com/acme/9" sr_live_soup enr0
     sr_live_row (by decide)⟩

/-! ## C8 — Ashby API cross-check -/

/-- C8: an Ashby API failure (non-200 status, or an error payload) makes
`parse_ashby` return null, while an API success whose listing lacks the
job id falls back to the page-derived title (trailing `@Company` dropped)
with location `"Unknown"` instead of returning null. -/
theorem c8_ashby_api :
    (∀ (url : String) (soup : Soup) (resp : AshbyApiResponse) (enr : Enrichment),
        resp.status_code ≠ 200 → parse_ashby url soup (some resp) enr = none) ∧
    (∀ (url : String) (soup : Soup) (resp : AshbyApiResponse) (enr : Enrichment),
        resp.has_errors = true → parse_ashby url soup (some resp) enr = none) ∧
    (∀ (url : String) (soup : Soup) (resp : AshbyApiResponse) (enr : Enrichment)
        (row : JobPosting),
        resp.job_postings.find?
            (fun j => j.id == some (ashby_job_id ((py_path_parts url).getD 1 ""))) = none →
        parse_ashby url soup (some resp) enr = some row →
        ∃ t, ashby_fallback_title_raw soup = some t ∧
          row.job_title = some (ashby_clean_title t) ∧ row.location = some "Unknown") := by
  refine ⟨fun url soup resp enr h => ?_, fun url soup resp enr h => ?_,
    fun url soup resp enr row hfind h => ?_⟩
  · simp [parse_ashby, h]
  · simp [parse_ashby, h]
  · simp only [parse_ashby] at h
    simp only [hfind] at h
    split at h <;> simp_all
    split at h <;> simp_all
    rename_i tl heq
    rcases hfb : ashby_fallback_title_raw soup with _ | t <;> rw [hfb] at heq
    · exact absurd heq (by simp)
    · obtain ⟨-, -, -, -, h3⟩ := h
      have htl : tl = (ashby_clean_title t, "Unknown") := by simpa using heq.symm
      refine ⟨t, rfl, ?_, ?_⟩
      · rw [← h3, htl]
      · rw [← h3, htl]

/-- The posting `parse_ashby` falls back to when the job id is absent from
the API listing. -/
def ashby_fallback_row : JobPosting :=
  { job_title := some "Platform Engineer"
    company := "acme"
    location := some "Unknown"
    description := "Design and operate our cloud platform infrastructure every day..."
    job_url := "https://jobs.ashbyhq.com/acme/j9"
    company_website := none
    hr_email := none
    hr_name := none
    hr_linkedin := none
    source := "Ashby" }

/-- C8, evaluated: a 500 status and an error payload each yield null; an
id absent from the listing yields the cleaned page title (the trailing
`@Acme` dropped) and location `"Unknown"`. -/
theorem c8_witness :
    parse_ashby "https://jobs.ashbyhq.com/acme/j1" ashby_live_soup
        (some { status_code := 500, has_errors := false, job_postings := [] }) enr0 = none ∧
    parse_ashby "https://jobs.ashbyhq.com/acme/j1" ashby_live_soup
        (some { status_code := 200, has_errors := true, job_postings := [] }) enr0 = none ∧
    (∃ t, ashby_fallback_title_raw ashby_live_soup = some t ∧
      ashby_fallback_row.job_title = some (ashby_clean_title t) ∧
      ashby_fallback_row.location = some "Unknown") :=
  ⟨c8_ashby_api.1 "https://jobs.ashbyhq.com/acme/j1" ashby_live_soup
     { status_code := 500, has_errors := false, job_postings := [] } enr0 (by decide),
   c8_ashby_api.2.1 "https://jobs.ashbyhq.com/acme/j1" ashby_live_soup
     { status_code := 200, has_errors := true, job_postings := [] } enr0 rfl,
   c8_ashby_api.2.2 "https://jobs.ashbyhq.com/acme/j9" ashby_live_soup ashby_api_ok enr0
     ashby_fallback_row (by decide) (by decide)⟩

/-! ## C2 — idempotence of the delta store -/

theorem jobURLs_append (a b : List JobPosting) :
    jobURLs (a ++ b) = jobURLs a ++ jobURLs b := by
  simp [jobURLs]

theorem mem_master_after_process (X : List JobPosting) (st : StoreState) (r : JobPosting)
    (hr : r ∈ X) : r.job_url ∈ jobURLs (masterRows (process_results X st)) := by
  have hX : X.isEmpty = false := by
    cases X with
    | nil => cases hr
    | cons a l => rfl
  cases hm : st.master with
  | none =>
      simp only [process_results, hX, Bool.false_eq_true, if_false, hm, masterRows,
        Option.getD_some]
      exact List.mem_map_of_mem _ hr
  | some m =>
      simp only [process_results, hX, Bool.false_eq_true, if_false, hm]
      by_cases hmem : r.job_url ∈ jobURLs m
      · split <;> simp only [masterRows, Option.getD_some]
        · rw [jobURLs_append]
          exact List.mem_append_left _ hmem
        · exact hmem
      · have hrD : r ∈ X.filter fun a => decide (a.job_url ∉ jobURLs m) :=
          List.mem_filter.mpr ⟨hr, by simpa using hmem⟩
        have hne : (X.filter fun a => decide (a.job_url ∉ jobURLs m)).isEmpty = false := by
          cases hF : X.filter fun a => decide (a.job_url ∉ jobURLs m) with
          | nil => rw [hF] at hrD; cases hrD
          | cons b l => rfl
        simp only [hne, Bool.false_eq_true, not_false_iff, if_true, masterRows,
          Option.getD_some]
        rw [jobURLs_append]
        exact List.mem_append_right _ (List.mem_map_of_mem _ hrD)

theorem process_master_some (X : List JobPosting) (st : StoreState) (hX : X.isEmpty = false) :
    (process_results X st).master = some (masterRows (process_results X st)) := by
  simp only [process_results, hX, Bool.false_eq_true, if_false]
  cases st.master with
  | none => rfl
  | some m =>
      dsimp only
      by_cases hD : ((X.filter fun r => decide (r.job_url ∉ jobURLs m)).isEmpty) = true
      · rw [if_neg (not_not_intro hD)]
        rfl
      · rw [if_pos hD]
        rfl

theorem process_results_stable (X : List JobPosting) (st1 : StoreState)
    (hm1 : st1.master = some (masterRows st1))
    (hflt : (X.filter fun r => decide (r.job_url ∉ jobURLs (masterRows st1))) = [])
    (hX : X.isEmpty = false) :
    process_results X st1 = { master := st1.master, delta := some [] } := by
  simp only [process_results, hX, Bool.false_eq_true, if_false, hm1]
  rw [hflt]
  simp [hm1]

/-- C2: re-running `process_results` on the same `new_jobs` computes an
empty second delta, leaves the master untouched, and (for a non-empty
input) overwrites the delta file with zero rows. -/
theorem c2_idempotent (X : List JobPosting) (st : StoreState) :
    (process_results X (process_results X st)).master = (process_results X st).master ∧
    computed_delta X (process_results X st) = [] ∧
    (X ≠ [] → (process_results X (process_results X st)).delta = some []) := by
  by_cases hX : X.isEmpty = true
  · have hnil : X = [] := List.isEmpty_iff.mp hX
    subst hnil
    exact ⟨by simp [process_results], by simp [computed_delta], fun h => absurd rfl h⟩
  · have hX' : X.isEmpty = false := by simpa using hX
    have hm1 : (process_results X st).master =
        some (masterRows (process_results X st)) := process_master_some X st hX'
    have hflt : (X.filter fun r =>
        decide (r.job_url ∉ jobURLs (masterRows (process_results X st)))) = [] := by
      rw [List.filter_eq_nil_iff]
      intro a ha
      simpa using mem_master_after_process X st a ha
    have hstable := process_results_stable X (process_results X st) hm1 hflt hX'
    refine ⟨by rw [hstable], ?_, fun _ => by rw [hstable]⟩
    simp only [computed_delta, hX', Bool.false_eq_true, if_false, hm1]
    exact hflt

/-- A record used to exercise the delta store. -/
def c2_row : JobPosting :=
  { job_title := some "Engineer"
    company := "acme"
    location := some "NYC"
    description := "Build things..."
    job_url := "https://jobs.lever.co/acme/42"
    company_website := none
    hr_email := none
    hr_name := none
    hr_linkedin := none
    source := "Lever" }

/-- C2, evaluated: ingesting the same one-record batch twice starting from
no master leaves the master as written by the first run and produces an
empty second delta. -/
theorem c2_witness :
    (process_results [c2_row] (process_results [c2_row] ⟨none, none⟩)).master =
        (process_results [c2_row] ⟨none, none⟩).master ∧
    computed_delta [c2_row] (process_results [c2_row] ⟨none, none⟩) = [] ∧
    (process_results [c2_row] (process_results [c2_row] ⟨none, none⟩)).delta = some [] :=
  ⟨(c2_idempotent [c2_row] ⟨none, none⟩).1,
   (c2_idempotent [c2_row] ⟨none, none⟩).2.1,
   (c2_idempotent [c2_row] ⟨none, none⟩).2.2 (by decide)⟩

/-! ## C4 — dedup key behaviour -/

/-- First of two same-URL records in one batch. -/
def c4_row_a : JobPosting :=
  { job_title := some "Engineer"
    company := "acme"
    location := some "NYC"
    description := "First variant..."
    job_url := "https://jobs.lever.co/acme/7"
    company_website := none
    hr_email := none
    hr_name := none
    hr_linkedin := none
    source := "Lever" }

/-- Second of two same-URL records in one batch (other fields differ). -/
def c4_row_b : JobPosting :=
  { c4_row_a with job_title := some "Scientist", description := "Second variant..." }

/-- C4 counterexample: a batch holding two records with the same `Job URL`
but different other fields is persisted whole — the second record is
retained too, because the delta filter only checks URLs against the
*existing* master, never within the batch. -/
theorem c4_counterexample :
    c4_row_a.job_url = c4_row_b.job_url ∧ c4_row_a ≠ c4_row_b ∧
    (process_results [c4_row_a, c4_row_b] ⟨none, none⟩).master =
      some [c4_row_a, c4_row_b] := by
  decide

theorem jobURLs_process_subset (X : List JobPosting) (st : StoreState) :
    jobURLs (masterRows (process_results X st)) ⊆
      jobURLs (masterRows st) ++ jobURLs X := by
  by_cases hX : X.isEmpty = true
  · simp [process_results, hX, List.subset_append_left]
  · have hX' : X.isEmpty = false := by simpa using hX
    cases hm : st.master with
    | none =>
        simp only [process_results, hX', Bool.false_eq_true, if_false, hm, masterRows,
          Option.getD_some, Option.getD_none]
        exact List.subset_append_right _ _
    | some m =>
        have hmr : masterRows st = m := by simp [masterRows, hm]
        simp only [process_results, hX', Bool.false_eq_true, if_false, hm, hmr]
        split
        · simp only [masterRows, Option.getD_some]
          rw [jobURLs_append]
          apply List.append_subset.mpr
          refine ⟨List.subset_append_left _ _, ?_⟩
          intro u hu
          rcases List.mem_map.mp hu with ⟨a, ha, rfl⟩
          exact List.mem_append_right _ (List.mem_map_of_mem _ (List.mem_of_mem_filter ha))
        · simp only [masterRows, Option.getD_some]
          exact List.subset_append_left _ _

theorem jobURLs_foldl_subset (runs : List (List JobPosting)) (st : StoreState) :
    jobURLs (masterRows (runs.foldl (fun acc X => process_results X acc) st)) ⊆
      jobURLs (masterRows st) ++ jobURLs runs.flatten := by
  induction runs generalizing st with
  | nil => simp
  | cons X rs ih =>
      intro u hu
      have h1 := ih (process_results X st) hu
      rcases List.mem_append.mp h1 with h2 | h2
      · have h3 := jobURLs_process_subset X st h2
        rw [List.flatten_cons, jobURLs_append]
        rcases List.mem_append.mp h3 with h4 | h4
        · exact List.mem_append_left _ h4
        · exact List.mem_append_right _ (List.mem_append_left _ h4)
      · rw [List.flatten_cons, jobURLs_append]
        exact List.mem_append_right _ (List.mem_append_right _ h2)

/-- C4 amended: deduplication applies only against the existing master's
key set — with an existing master, a non-empty batch is appended as the
whole subsequence of records whose URL is not already a master key, so
same-URL duplicates *within* one batch are all retained; still, the number
of distinct `Job URL` keys in the master never exceeds the number of
distinct URLs ever ingested across all runs. -/
theorem c4_amended_thm :
    (∀ (X m : List JobPosting) (dlt : Option (List JobPosting)), X.isEmpty = false →
        masterRows (process_results X ⟨some m, dlt⟩) =
          m ++ X.filter fun r => decide (r.job_url ∉ jobURLs m)) ∧
    (∀ runs : List (List JobPosting),
        ((jobURLs (masterRows
            (runs.foldl (fun acc X => process_results X acc) ⟨none, none⟩))).dedup).length ≤
          ((jobURLs runs.flatten).dedup).length) := by
  constructor
  · intro X m dlt hX
    simp only [process_results, hX, Bool.false_eq_true, if_false]
    by_cases hD : ((X.filter fun r => decide (r.job_url ∉ jobURLs m)).isEmpty) = true
    · rw [if_neg (not_not_intro hD)]
      have : (X.filter fun r => decide (r.job_url ∉ jobURLs m)) = [] :=
        List.isEmpty_iff.mp hD
      rw [this, List.append_nil]
      rfl
    · rw [if_pos hD]
      rfl
  · intro runs
    have hsub : (jobURLs (masterRows
        (runs.foldl (fun acc X => process_results X acc) ⟨none, none⟩))).dedup ⊆
        (jobURLs runs.flatten).dedup := by
      intro u hu
      rw [List.mem_dedup] at hu ⊢
      have := jobURLs_foldl_subset runs ⟨none, none⟩ hu
      simpa [masterRows, jobURLs] using this
    exact (List.nodup_dedup _).subperm hsub |>.length_le

/-- C4 amended, evaluated: a second-run batch is appended as its filtered
subsequence, and two one-record runs give at most two distinct keys. -/
theorem c4_amended_witness :
    masterRows (process_results [c4_row_b] ⟨some [c4_row_a], none⟩) =
        [c4_row_a] ++ [c4_row_b].filter (fun r => decide (r.job_url ∉ jobURLs [c4_row_a])) ∧
    ((jobURLs (masterRows ([[c4_row_a], [c4_row_b]].foldl
        (fun acc X => process_results X acc) ⟨none, none⟩))).dedup).length ≤
      ((jobURLs ([[c4_row_a], [c4_row_b]] : List (List JobPosting)).flatten).dedup).length :=
  ⟨c4_amended_thm.1 [c4_row_b] [c4_row_a] none (by decide),
   c4_amended_thm.2 [[c4_row_a], [c4_row_b]]⟩

/-! ## C10 — sourceURL identity -/

theorem parse_lever_url (url : String) (soup : Soup) (enr : Enrichment) (row : JobPosting)
    (h : parse_lever url soup enr = some row) : row.job_url = url := by
  rcases hd : soup.content_class_div <|> soup.posting_description_div with _ | d <;>
    simp only [parse_lever, hd] at h <;> split at h <;> simp_all
  first
    | (obtain ⟨-, -, h3⟩ := h
       rw [← h3])
    | (obtain ⟨-, h3⟩ := h
       rw [← h3])
    | (rw [← h])
    | rfl

theorem parse_greenhouse_url (url : String) (soup : Soup) (enr : Enrichment) (row : JobPosting)
    (h : parse_greenhouse url soup enr = some row) : row.job_url = url := by
  rcases hd : soup.content_id_div <|> soup.main_id_div with _ | d <;>
    simp only [parse_greenhouse, hd] at h <;> split at h <;> simp_all
  first
    | (obtain ⟨-, -, h3⟩ := h
       rw [← h3])
    | (obtain ⟨-, h3⟩ := h
       rw [← h3])
    | (rw [← h])
    | rfl

theorem parse_smartrecruiters_url (url : String) (soup : Soup) (enr : Enrichment)
    (row : JobPosting) (h : parse_smartrecruiters url soup enr = some row) :
    row.job_url = url := by
  rcases hd : soup.description_itemprop_div <|> soup.job_sections_div with _ | d <;>
    simp only [parse_smartrecruiters, hd] at h <;> split at h <;> simp_all
  first
    | (obtain ⟨-, -, h3⟩ := h
       rw [← h3])
    | (obtain ⟨-, h3⟩ := h
       rw [← h3])
    | (rw [← h])
    | rfl

theorem parse_ashby_url (url : String) (soup : Soup) (api : Option AshbyApiResponse)
    (enr : Enrichment) (row : JobPosting) (h : parse_ashby url soup api enr = some row) :
    row.job_url = url := by
  simp only [parse_ashby] at h
  repeat (split at h <;> simp_all)
  first
    | (obtain ⟨-, -, -, -, h3⟩ := h
       rw [← h3])
    | (obtain ⟨-, -, -, h3⟩ := h
       rw [← h3])
    | (obtain ⟨-, -, h3⟩ := h
       rw [← h3])
    | (obtain ⟨-, h3⟩ := h
       rw [← h3])
    | (rw [← h])
    | rfl

theorem scrape_step_url (url : String) (fetched : Option FetchResult) (row : JobPosting)
    (h : scrape_step url fetched = some row) : row.job_url = url := by
  cases fetched with
  | none => simp [scrape_step] at h
  | some r =>
      simp only [scrape_step] at h
      repeat'
        first
          | (obtain ⟨-, h⟩ := h)
          | (split at h <;> try simp_all)
      all_goals first
        | exact parse_lever_url _ _ _ _ h
        | exact parse_ashby_url _ _ _ _ _ h
        | exact parse_greenhouse_url _ _ _ _ h
        | exact parse_smartrecruiters_url _ _ _ _ h

/-- C10: every posting produced by the scrape loop carries as its
`Job URL` the originally requested candidate URL of the item that produced
it — never the post-redirect final URL. -/
theorem c10_source_url (items : List (String × Option FetchResult)) (row : JobPosting)
    (h : row ∈ scrape_jobs items) :
    ∃ p ∈ items, row.job_url = p.1 ∧ scrape_step p.1 p.2 = some row := by
  rcases List.mem_filterMap.mp h with ⟨p, hp, hstep⟩
  exact ⟨p, hp, scrape_step_url p.1 p.2 row hstep, hstep⟩

/-- A 200 fetch whose final URL differs from the requested one by a query
string (a non-closing redirect: same netloc, same path length). -/
def c10_fetch : FetchResult :=
  { status_code := 200
    final_url := "https://jobs.lever.co/acme/9?ref=redirect"
    soup := lever_live_soup
    ashby_api := none
    enrich := enr0 }

/-- C10, evaluated: the posting produced after a non-closing redirect still
carries the requested URL as its `Job URL`. -/
theorem c10_witness :
    ∃ p ∈ [("https://jobs.lever.co/acme/9", some c10_fetch)],
      lever_live_row.job_url = p.1 ∧ scrape_step p.1 p.2 = some lever_live_row :=
  c10_source_url [("https://jobs.lever.co/acme/9", some c10_fetch)] lever_live_row (by decide)
